import Mathlib

/-!
Shallow embedding of the user/group admin views and form schemas of the
websauna repository (files `pyramid_web20/schemas.py` and
`websauna/system/user/adminviews.py`), together with theorems checking the
natural-language specification against this embedding.

Modelling conventions:
* A Python `dict` appstruct coming out of a submitted form becomes a Lean
  structure with one field per form field.
* `registry.notify(e)` becomes collecting the emitted events in a list that
  the save function returns next to the saved object.
* `colander` validators become `String → Bool` acceptance functions; the
  library-provided `c.Email()` and `unique_email` validators are external to
  the repository, so they are kept abstract as function parameters.
* A SQLAlchemy query's `order_by(col.desc())` becomes appending the pair
  `(column name, descending flag)` to an explicit ordering list.
-/

/-- The `User` model fields touched by the admin views
(`websauna.system.user.models.User`): enabled flag, email, username,
full name and password credential. -/
structure User where
  enabled : Bool
  email : String
  username : String
  full_name : String
  password : String
deriving DecidableEq, Repr

/-- The appstruct produced by submitting the `UserEdit` form, one entry per
field in `UserEdit.includes`: `enabled`, `username`, `full_name`, `email`
(the `groups` sequence is kept as an abstract list of group ids). -/
structure UserEditAppstruct where
  enabled : Bool
  email : String
  username : String
  full_name : String
  groups : List Nat
deriving DecidableEq, Repr

/-- `events.UserAuthSensitiveOperation(request, user, reason)`: the event
notified to the authentication system; it carries the user and a reason
tag (the request object plays no role in the claims and is omitted). -/
structure UserAuthSensitiveOperation where
  user : User
  reason : String
deriving DecidableEq, Repr

/-- The field-binding performed by the base `save_changes`
(`super(UserEdit, self).save_changes(form, appstruct, user)`): the CRUD
scaffolding writes each submitted form value onto the model object. -/
def userEdit_baseSave (appstruct : UserEditAppstruct) (user : User) : User :=
  { user with
    enabled := appstruct.enabled
    email := appstruct.email
    username := appstruct.username
    full_name := appstruct.full_name }

/-- `UserEdit.save_changes` (adminviews.py lines 117-135): records whether
`enabled`, `email`, `username` changed relative to the pre-save user, runs
the base save, then builds at most one `UserAuthSensitiveOperation` event
by the `if/elif/elif` chain (enabled, then email, then username) and
notifies it.  Returns the saved user and the list of notified events. -/
def userEdit_save_changes (appstruct : UserEditAppstruct) (user : User) :
    User × List UserAuthSensitiveOperation :=
  let enabled_changes : Bool := appstruct.enabled != user.enabled
  let email_changes : Bool := appstruct.email != user.email
  let username_changes : Bool := appstruct.username != user.username
  let user2 := userEdit_baseSave appstruct user
  let e : Option UserAuthSensitiveOperation :=
    if enabled_changes then some ⟨user2, "enabled_change"⟩
    else if email_changes then some ⟨user2, "email_change"⟩
    else if username_changes then some ⟨user2, "username_change"⟩
    else none
  match e with
  | some ev => (user2, [ev])
  | none => (user2, [])

/-- The reasons of the events notified by one `UserEdit.save_changes` run. -/
def userEdit_reasons (appstruct : UserEditAppstruct) (user : User) :
    List String :=
  (userEdit_save_changes appstruct user).2.map UserAuthSensitiveOperation.reason

/-- How many of the three sensitive categories (`enabled`, `email`,
`username`) differ between the submitted appstruct and the pre-save user. -/
def changedCount (appstruct : UserEditAppstruct) (user : User) : Nat :=
  (if appstruct.enabled != user.enabled then 1 else 0) +
  (if appstruct.email != user.email then 1 else 0) +
  (if appstruct.username != user.username then 1 else 0)

/-- C1: for every user-edit submission, if exactly one of `enabled`,
`email`, `username` changed relative to the pre-save user, `save_changes`
notifies exactly one `UserAuthSensitiveOperation` tagged with the matching
reason (`"enabled_change"`, `"email_change"`, `"username_change"`), and if
none of them changed it notifies no event. -/
theorem userEdit_single_change_notifies_matching_reason
    (a : UserEditAppstruct) (u : User) :
    (a.enabled ≠ u.enabled → a.email = u.email → a.username = u.username →
      userEdit_reasons a u = ["enabled_change"]) ∧
    (a.enabled = u.enabled → a.email ≠ u.email → a.username = u.username →
      userEdit_reasons a u = ["email_change"]) ∧
    (a.enabled = u.enabled → a.email = u.email → a.username ≠ u.username →
      userEdit_reasons a u = ["username_change"]) ∧
    (a.enabled = u.enabled → a.email = u.email → a.username = u.username →
      userEdit_reasons a u = []) := by
  refine ⟨?_, ?_, ?_, ?_⟩ <;> intro h1 h2 h3 <;>
    simp [userEdit_reasons, userEdit_save_changes, h1, h2, h3, bne_iff_ne]

/-- Witness for C1 at concrete inputs: flipping only `enabled` from
`false` to `true` yields exactly the `"enabled_change"` event. -/
theorem userEdit_single_change_witness :
    userEdit_reasons
      ⟨true, "a@example.com", "alice", "Alice", []⟩
      ⟨false, "a@example.com", "alice", "Alice", "pw"⟩ = ["enabled_change"] :=
  (userEdit_single_change_notifies_matching_reason
      ⟨true, "a@example.com", "alice", "Alice", []⟩
      ⟨false, "a@example.com", "alice", "Alice", "pw"⟩).1
    (by decide) rfl rfl

/-- C2: if two or more of `enabled`, `email`, `username` changed in the
same submission, exactly one event is notified, chosen by the first
matching condition in the priority order enabled, then email, then
username. -/
theorem userEdit_multi_change_priority
    (a : UserEditAppstruct) (u : User) (h : 2 ≤ changedCount a u) :
    userEdit_reasons a u =
      [if a.enabled != u.enabled then "enabled_change"
       else if a.email != u.email then "email_change"
       else "username_change"] := by
  cases hb : a.enabled != u.enabled <;>
    cases hc : a.email != u.email <;>
      cases hd : a.username != u.username <;>
        simp_all [userEdit_reasons, userEdit_save_changes, changedCount]

/-- Witness for C2 at concrete inputs: changing both `email` and
`username` but not `enabled` yields exactly the `"email_change"` event. -/
theorem userEdit_multi_change_witness :
    userEdit_reasons
      ⟨true, "b@example.com", "bob", "Alice", []⟩
      ⟨true, "a@example.com", "alice", "Alice", "pw"⟩ = ["email_change"] := by
  have h := userEdit_multi_change_priority
      ⟨true, "b@example.com", "bob", "Alice", []⟩
      ⟨true, "a@example.com", "alice", "Alice", "pw"⟩ (by decide)
  simpa using h

/-- The appstruct produced by submitting the `UserSetPassword` form, whose
single field is `password` (a `CheckedPasswordWidget`). -/
structure SetPasswordAppstruct where
  password : String
deriving DecidableEq, Repr

/-- The field-binding performed by the base `save_changes` for the
set-password form: the scaffolding writes the submitted password onto the
user object. -/
def userSetPassword_baseSave (appstruct : SetPasswordAppstruct) (obj : User) :
    User :=
  { obj with password := appstruct.password }

/-- `UserSetPassword.save_changes` (adminviews.py lines 178-183): runs the
base save and then unconditionally notifies one
`UserAuthSensitiveOperation` with reason `"password_change"`. -/
def userSetPassword_save_changes (appstruct : SetPasswordAppstruct)
    (obj : User) : User × List UserAuthSensitiveOperation :=
  let obj2 := userSetPassword_baseSave appstruct obj
  let e := UserAuthSensitiveOperation.mk obj2 "password_change"
  (obj2, [e])

/-- A flash message added through `websauna.system.core.messages.add`. -/
structure FlashMessage where
  kind : String
  msg : String
  msg_id : String
deriving DecidableEq, Repr

/-- `request.resource_url(context, "show")`: the URL of the named view of a
traversal context, modelled as the context URL with the view name as the
trailing path segment. -/
def resource_url (contextUrl viewName : String) : String :=
  contextUrl ++ "/" ++ viewName

/-- `UserSetPassword.do_success` (adminviews.py lines 185-188): adds a
success flash message and returns an `HTTPFound` redirect to the `"show"`
view of the context object.  Returns the message and the redirect URL. -/
def userSetPassword_do_success (contextUrl : String) :
    FlashMessage × String :=
  (⟨"success", "Password changed.", "msg-password-changed"⟩,
   resource_url contextUrl "show")

/-- C3: every successful set-password submission notifies exactly one
`"password_change"` event, even when the submitted password equals the
current one, and `do_success` adds a success message and redirects to the
object's show page. -/
theorem userSetPassword_always_notifies_and_redirects
    (a : SetPasswordAppstruct) (obj : User) (contextUrl : String) :
    (userSetPassword_save_changes a obj).2.map
        UserAuthSensitiveOperation.reason = ["password_change"] ∧
    (userSetPassword_do_success contextUrl).1.kind = "success" ∧
    (userSetPassword_do_success contextUrl).2 = contextUrl ++ "/show" := by
  refine ⟨rfl, rfl, ?_⟩
  show contextUrl ++ "/" ++ "show" = contextUrl ++ "/show"
  rw [String.append_assoc]
  rfl

/-- `PASSWORD_MIN_LENGTH` (schemas.py line 10). -/
def PASSWORD_MIN_LENGTH : Nat := 6

/-- `colander.Length(min=n)` acceptance on a string value: the validator
raises `Invalid` exactly when the value is shorter than `n`. -/
def lengthValidator (n : Nat) (s : String) : Bool :=
  n ≤ s.length

/-- `colander.All(v1, v2)` acceptance: the composite validator succeeds
exactly when every component validator succeeds. -/
def allValidator (vs : List (String → Bool)) (s : String) : Bool :=
  vs.all (fun v => v s)

/-- `RegisterSchema.password`'s validator
(`c.Length(min=PASSWORD_MIN_LENGTH)`, schemas.py lines 22-26). -/
def registerPasswordValid (s : String) : Bool :=
  lengthValidator PASSWORD_MIN_LENGTH s

/-- `LoginSchema.password`'s validator
(`c.Length(min=PASSWORD_MIN_LENGTH)`, schemas.py line 34). -/
def loginPasswordValid (s : String) : Bool :=
  lengthValidator PASSWORD_MIN_LENGTH s

/-- `RegisterSchema.email`'s validator
(`c.All(c.Email(), unique_email)`, schemas.py lines 16-20); the
library-provided email-format and uniqueness validators are abstract
parameters. -/
def registerEmailValid (emailFormat uniqueEmail : String → Bool)
    (s : String) : Bool :=
  allValidator [emailFormat, uniqueEmail] s

/-- `LoginSchema.email`'s validator
(`c.All(c.Email(), unique_email)`, schemas.py line 32). -/
def loginEmailValid (emailFormat uniqueEmail : String → Bool)
    (s : String) : Bool :=
  allValidator [emailFormat, uniqueEmail] s

/-- C4: a password shorter than 6 characters is rejected by the password
length validator of both the registration and the login schema, and the
minimum length constant is 6. -/
theorem password_min_length_six (s : String) (h : s.length < 6) :
    PASSWORD_MIN_LENGTH = 6 ∧
    registerPasswordValid s = false ∧ loginPasswordValid s = false := by
  refine ⟨rfl, ?_, ?_⟩ <;>
    simp [registerPasswordValid, loginPasswordValid, lengthValidator,
      PASSWORD_MIN_LENGTH] <;> omega

/-- Witness for C4: the 5-character password `"abcde"` is rejected. -/
theorem password_min_length_six_witness :
    PASSWORD_MIN_LENGTH = 6 ∧
    registerPasswordValid "abcde" = false ∧
    loginPasswordValid "abcde" = false :=
  password_min_length_six "abcde" (by decide)

/-- C5: the registration email validator is the conjunction of the
email-format validator and the uniqueness validator, so a value failing
either one is rejected. -/
theorem register_email_conjunction
    (emailFormat uniqueEmail : String → Bool) (s : String) :
    registerEmailValid emailFormat uniqueEmail s =
      (emailFormat s && uniqueEmail s) ∧
    (emailFormat s = false ∨ uniqueEmail s = false →
      registerEmailValid emailFormat uniqueEmail s = false) := by
  constructor
  · simp [registerEmailValid, allValidator]
  · rintro (h | h) <;> simp [registerEmailValid, allValidator, h]

/-- Witness for C5: with a format validator that rejects everything and a
uniqueness validator that accepts everything, the empty string is
rejected. -/
theorem register_email_conjunction_witness :
    registerEmailValid (fun _ => false) (fun _ => true) "" = false :=
  (register_email_conjunction (fun _ => false) (fun _ => true) "").2
    (Or.inl rfl)

/-- C6: the login form's email and password validators accept exactly the
same inputs as the registration form's corresponding validators. -/
theorem login_register_same_validators
    (emailFormat uniqueEmail : String → Bool) (s p : String) :
    loginEmailValid emailFormat uniqueEmail s =
      registerEmailValid emailFormat uniqueEmail s ∧
    loginPasswordValid p = registerPasswordValid p :=
  ⟨rfl, rfl⟩

/-- A column of a `listing.Table`: either a regular data column with a
column id and a human-readable heading (`listing.Column(id, label)`), or
the row-action controls column (`listing.ControlsColumn()`). -/
inductive ListingColumn where
  | column (id : String) (label : String)
  | controls
deriving DecidableEq, Repr

/-- The id of a listing column; the controls column is identified as
`"controls"`. -/
def ListingColumn.colId : ListingColumn → String
  | .column i _ => i
  | .controls => "controls"

/-- `UserListing.table` (adminviews.py lines 57-64): columns `id`,
`friendly_name`, `email` and the controls column, in that order. -/
def userListing_columns : List ListingColumn :=
  [.column "id" "Id",
   .column "friendly_name" "Friendly name",
   .column "email" "Email",
   .controls]

/-- `GroupListing.table` (adminviews.py lines 199-206): columns `id`,
`name`, `description` and the controls column. -/
def groupListing_columns : List ListingColumn :=
  [.column "id" "Id",
   .column "name" "Name",
   .column "description" "Description",
   .controls]

/-- A query with its accumulated ordering: each `order_by(col.desc())`
call appends the column name paired with a descending flag. -/
structure Query where
  ordering : List (String × Bool)
deriving DecidableEq, Repr

/-- `query.order_by(col.desc() / col.asc())`: append the ordering key. -/
def Query.order_by (q : Query) (col : String) (descending : Bool) : Query :=
  { ordering := q.ordering ++ [(col, descending)] }

/-- `UserListing.order_query` (adminviews.py lines 66-67):
`query.order_by(model.created_at.desc())`. -/
def userListing_order_query (q : Query) : Query :=
  q.order_by "created_at" true

/-- `GroupListing.order_query` (adminviews.py lines 208-209):
`query.order_by(model.id.desc())`. -/
def groupListing_order_query (q : Query) : Query :=
  q.order_by "id" true

/-- C7: the admin user listing declares exactly the data columns `id`,
`friendly_name`, `email` followed by one controls column (four columns in
all), and its default ordering appends a sort by `created_at` descending
to the query. -/
theorem userListing_columns_and_order (q : Query) :
    userListing_columns.map ListingColumn.colId =
      ["id", "friendly_name", "email", "controls"] ∧
    userListing_columns.getLast? = some ListingColumn.controls ∧
    userListing_columns.length = 4 ∧
    (userListing_order_query q).ordering = q.ordering ++ [("created_at", true)] :=
  ⟨rfl, rfl, rfl, rfl⟩

/-- C10: the admin group listing's default ordering appends a sort by the
group `id` descending, which is not a sort by creation time (unlike the
user listing, which sorts by `created_at` descending). -/
theorem groupListing_orders_by_id_desc (q : Query) :
    (groupListing_order_query q).ordering = q.ordering ++ [("id", true)] ∧
    (groupListing_order_query q).ordering ≠
      (userListing_order_query q).ordering := by
  refine ⟨rfl, ?_⟩
  simp [groupListing_order_query, userListing_order_query, Query.order_by]

/-- `GroupShow.includes` (adminviews.py lines 214-220). -/
def groupShow_includes : List String :=
  ["id", "name", "description", "created_at", "updated_at"]

/-- `GroupAdd.includes` (adminviews.py lines 229-232). -/
def groupAdd_includes : List String :=
  ["name", "description"]

/-- The fields `GroupEdit` appends to the base `Edit.includes`
(adminviews.py lines 241-244: `admin_views.Edit.includes + [...]`). -/
def groupEdit_extra_includes : List String :=
  ["name", "description"]

/-- `GroupEdit.includes` as a function of the base `Edit.includes` list
(the base class lives outside this repository). -/
def groupEdit_includes (base : List String) : List String :=
  base ++ groupEdit_extra_includes

/-- C8 counterexample: the group add form does not include the timestamp
fields, refuting the claim that the group show, edit and add forms each
include `created_at` and `updated_at`. -/
theorem groupAdd_has_no_timestamps :
    ¬ ("created_at" ∈ groupAdd_includes ∨ "updated_at" ∈ groupAdd_includes) := by
  decide

/-- C8 amended: every admin group view exposes `name` and `description`;
the group show view additionally includes both timestamps, but the group
add form includes exactly `name` and `description` with no timestamp
fields, and the group edit form appends exactly `name` and `description`
(no timestamps) to the base edit includes. -/
theorem group_views_fields :
    ("name" ∈ groupShow_includes ∧ "description" ∈ groupShow_includes) ∧
    ("name" ∈ groupAdd_includes ∧ "description" ∈ groupAdd_includes) ∧
    ("name" ∈ groupEdit_extra_includes ∧
      "description" ∈ groupEdit_extra_includes) ∧
    ("name" ∈ groupListing_columns.map ListingColumn.colId ∧
      "description" ∈ groupListing_columns.map ListingColumn.colId) ∧
    ("created_at" ∈ groupShow_includes ∧ "updated_at" ∈ groupShow_includes) ∧
    groupAdd_includes = ["name", "description"] ∧
    groupEdit_extra_includes = ["name", "description"] := by
  decide

/-- An entry of a CRUD view's `includes` list: either a plain field name
string, or an explicit `colander.SchemaNode` override carrying the node
type and the field name. -/
inductive FormField where
  | named (name : String)
  | node (typeName : String) (name : String)
deriving DecidableEq, Repr

/-- The field name an `includes` entry refers to. -/
def FormField.fieldName : FormField → String
  | .named n => n
  | .node _ n => n

/-- The fields `UserEdit` appends to the base `Edit.includes`
(adminviews.py lines 109-115: `admin_views.Edit.includes + [...]`):
`enabled`, a required `username` string node, a `full_name` string node,
`email` and a `groups` sequence node. -/
def userEdit_extra_includes : List FormField :=
  [.named "enabled",
   .node "String" "username",
   .node "String" "full_name",
   .named "email",
   .node "Sequence" "groups"]

/-- `UserEdit.includes` as a function of the base `Edit.includes` list
(the base class lives outside this repository). -/
def userEdit_includes (base : List FormField) : List FormField :=
  base ++ userEdit_extra_includes

/-- C9: every event notified by `UserEdit.save_changes` carries a reason
from exactly the set containing `"enabled_change"`, `"email_change"` and
`"username_change"` — never `"password_change"` — and the edit form's
includes contain no password field whenever the base edit includes
contain none (the form declares no password field of its own). -/
theorem userEdit_reason_tags_no_password :
    (∀ (a : UserEditAppstruct) (u : User),
      ∀ e ∈ (userEdit_save_changes a u).2,
        e.reason ∈ (["enabled_change", "email_change", "username_change"] :
            List String) ∧
        e.reason ≠ "password_change") ∧
    (∀ base : List FormField,
      (∀ f ∈ base, f.fieldName ≠ "password") →
      ∀ f ∈ userEdit_includes base, f.fieldName ≠ "password") := by
  constructor
  · intro a u e he
    simp only [userEdit_save_changes] at he
    by_cases h1 : a.enabled = u.enabled <;>
      by_cases h2 : a.email = u.email <;>
        by_cases h3 : a.username = u.username <;>
          simp [h1, h2, h3] at he <;>
            simp [he]
  · intro base hbase f hf
    rcases List.mem_append.mp hf with h | h
    · exact hbase f h
    · fin_cases h <;> decide

/-- Witness for C9 at concrete inputs: the event notified when only the
email changes carries the `"email_change"` tag, which is among the three
allowed reasons and differs from `"password_change"`; and with an empty
base includes list the edit form has no password field. -/
theorem userEdit_reason_tags_witness :
    ("email_change" ∈ (["enabled_change", "email_change", "username_change"] :
        List String) ∧ "email_change" ≠ "password_change") ∧
    FormField.fieldName (FormField.named "email") ≠ "password" :=
  ⟨userEdit_reason_tags_no_password.1
      ⟨true, "b@example.com", "alice", "Alice", []⟩
      ⟨true, "a@example.com", "alice", "Alice", "pw"⟩
      ⟨userEdit_baseSave
          ⟨true, "b@example.com", "alice", "Alice", []⟩
          ⟨true, "a@example.com", "alice", "Alice", "pw"⟩, "email_change"⟩
      (by decide),
   userEdit_reason_tags_no_password.2
      [FormField.named "email"] (by decide)
      (FormField.named "email") (by decide)⟩
